import Mathlib

/-!
Shallow embedding of `location_history_json_converter.py` (Scarygami's
location-history-json-converter) and proofs about its conversion pipeline.

Modelling conventions:
* A Google Takeout location record (a Python dict) is a `Location` structure of
  optional fields; `none` models an absent key.
* `timestampMs`, the coordinate fields and `accuracy` are modelled as integers
  (`int(item["timestampMs"])` is then the identity).
* Python `datetime` values are modelled by their epoch timestamp in seconds as
  a rational number: `datetime.utcfromtimestamp(int(ts)/1000)` becomes
  `ts / 1000 : ℚ`, and datetime comparisons become rational comparisons.
* Python float arithmetic is modelled exactly: by `ℚ` where only ring
  operations and comparisons occur, and by `ℝ` inside the Haversine formula
  (`math.sin`, `math.cos`, `math.sqrt`, `math.atan2`).
* Calls into libraries whose output no claim depends on (`strftime` rendering,
  `json.dumps` of a full record, `str`/`"%.8f"` rendering of floats) are kept
  abstract as fields of a `PyExt` structure; theorems are universally
  quantified over them.
* A shapely polygon is abstracted by its containment predicate
  `ℚ → ℚ → Bool` (the observable behaviour of `polygon.contains(Point(...))`).
* `output.write` calls are modelled by accumulating the written text in a
  state; `print` calls go to stdout, not to the output buffer, and are not
  modelled.
* A raised Python exception aborts the pipeline; `convert` reports it in the
  `err` field of its result, together with the text written so far.
* Besides the written text, the model records as observations of a run the
  list of records passed to `_write_location` (`written`) and the part of the
  input the loop never consumed (`leftover`).
-/

set_option maxRecDepth 100000

namespace LocHist

/-- Error values for the Python exceptions the modelled code can raise:
`KeyError` from a missing dict key and `TypeError` from comparing an `int`
with `None` (Python 3 semantics of `item["accuracy"] > None`). -/
inductive PyError where
  | keyError (key : String)
  | typeError
deriving DecidableEq

/-- One element of the inner `"activity"` list: a dict with optional
`"type"` and `"confidence"` keys. -/
structure ActivityEntry where
  type : Option String := none
  confidence : Option Int := none
deriving DecidableEq

/-- One element of a record's `"activity"` array: a dict with an optional
inner `"activity"` key holding a list of entries. -/
structure ActivityRecord where
  activity : Option (List ActivityEntry) := none
deriving DecidableEq

/-- A location record from the Takeout JSON: a dict whose keys may be absent.
Only the keys the converter reads are modelled. -/
structure Location where
  latitudeE7 : Option Int := none
  longitudeE7 : Option Int := none
  timestampMs : Option Int := none
  accuracy : Option Int := none
  altitude : Option Int := none
  speed : Option Int := none
  verticalAccuracy : Option Int := none
  velocity : Option Int := none
  heading : Option Int := none
  activity : Option (List ActivityRecord) := none
deriving DecidableEq

/-- Dict access `item["latitudeE7"]`; total stand-in, only applied after the
loop's completeness check (line 379) has established presence of the key. -/
def getLat (l : Location) : Int := l.latitudeE7.getD 0

/-- Dict access `item["longitudeE7"]`; only applied after the completeness
check has established presence of the key. -/
def getLon (l : Location) : Int := l.longitudeE7.getD 0

/-- Dict access `item["timestampMs"]` (as `int(...)`); only applied after the
completeness check, or as the sort key where `sortLocations` has already
checked presence. -/
def getTs (l : Location) : Int := l.timestampMs.getD 0

/-- The `datetime` value `datetime.utcfromtimestamp(int(item["timestampMs"]) / 1000)`
of a record, modelled by its epoch timestamp in seconds. -/
def timeOf (l : Location) : ℚ := (getTs l : ℚ) / 1000

/-- A shapely polygon, abstracted by the containment predicate of
`polygon.contains(Point(lat, lon))` on exact rational coordinates. -/
def Polygon : Type := ℚ → ℚ → Bool

/-- The ten output formats accepted by `convert` (the `choices` of the `-f`
argument; the Python code carries them as strings). -/
inductive Format where
  | kml | json | js | jsonfull | jsfull | csv | csvfull | csvfullest | gpx | gpxtracks
deriving DecidableEq

/-- The keyword parameters of `convert` (lines 326-329) with their Python
defaults. Dates are modelled as epoch seconds (`ℚ`). -/
structure ConvertOpts where
  format : Format := .kml
  jsVariable : String := "locationJsonData"
  separator : String := ","
  startDate : Option ℚ := none
  endDate : Option ℚ := none
  accuracy : Option Int := none
  polygon : Option Polygon := none
  chronological : Bool := false

/-- External library calls whose rendered text no claim depends on; theorems
are quantified over an arbitrary `PyExt`. `strftime fmt ms` models
`datetime.utcfromtimestamp(ms / 1000).strftime(fmt)`; `dumpsFull` models
`json.dumps(location, separators=(",", ":"))`; `floatStr` models `"%s" % x`
and `fixed8` models `"%.8f" % x` for a float `x` (given exactly as `ℚ`). -/
structure PyExt where
  strftime : String → Int → String
  dumpsFull : Location → String
  floatStr : ℚ → String
  fixed8 : ℚ → String

/-- Overflow correction of lines 400-405 applied to one coordinate component:
subtract 2^32 when the raw value exceeds 1_800_000_000. -/
def normalizeCoord (x : Int) : Int :=
  if 1800000000 < x then x - 4294967296 else x

/-- In-place mutation of the two coordinate fields of a record by the
overflow correction (lines 402-405). -/
def normalizeItem (item : Location) : Location :=
  { item with
    latitudeE7 := some (normalizeCoord (getLat item)),
    longitudeE7 := some (normalizeCoord (getLon item)) }

/-- Function `_check_point` (lines 60-63): build `Point(lat/1e7, lon/1e7)`
from the raw integer fields and test polygon containment. -/
def checkPoint (polygon : Polygon) (lat lon : Int) : Bool :=
  polygon ((lat : ℚ) / 10000000) ((lon : ℚ) / 10000000)

/-- Function `_deg2rad` (lines 90-91). -/
noncomputable def deg2rad (deg : ℝ) : ℝ := deg * (Real.pi / 180)

/-- Python `math.atan2 y x`, modelled as the argument of the complex number
with real part `x` and imaginary part `y`. -/
noncomputable def atan2 (y x : ℝ) : ℝ := Complex.arg ⟨x, y⟩

/-- Function `_distance` (lines 76-87): Haversine distance in km between two
(lat, lon) pairs in decimal degrees, with earth radius 6371 km. -/
noncomputable def distance (lat1 lon1 lat2 lon2 : ℝ) : ℝ :=
  let dlat := deg2rad (lat2 - lat1)
  let dlon := deg2rad (lon2 - lon1)
  let a := Real.sin (dlat / 2) * Real.sin (dlat / 2) +
    Real.cos (deg2rad lat1) * Real.cos (deg2rad lat2) *
    Real.sin (dlon / 2) * Real.sin (dlon / 2)
  let c := 2 * atan2 (Real.sqrt a) (Real.sqrt (1 - a))
  6371 * c

/-- Coordinate field scaled to decimal degrees as an exact rational,
`item["latitudeE7"] / 10000000`. -/
def q7 (n : Int) : ℚ := (n : ℚ) / 10000000

/-- Coordinate field scaled to decimal degrees as a real number, for use in
the Haversine formula. -/
noncomputable def r7 (n : Int) : ℝ := (n : ℝ) / 10000000

/-- The `timedelta` of line 272 in minutes:
`abs((int(location["timestampMs"]) - int(last_location["timestampMs"])) / 1000 / 60)`. -/
def trackTimedelta (location last_location : Location) : ℚ :=
  |((getTs location : ℚ) - (getTs last_location : ℚ)) / 1000 / 60|

/-- The `distancedelta` of lines 273-278: Haversine distance between the
current and the previous written record. -/
noncomputable def trackDistance (location last_location : Location) : ℝ :=
  distance (r7 (getLat location)) (r7 (getLon location))
    (r7 (getLat last_location)) (r7 (getLon last_location))

/-- Condition of line 279 deciding that a new `<trk>`/`<trkseg>` is started
in `gpxtracks` output: `timedelta > 10 or distancedelta > 40`. -/
def NewTrackCond (location last_location : Location) : Prop :=
  10 < trackTimedelta location last_location ∨ 40 < trackDistance location last_location

/-- Function `_read_activity` (lines 66-73): collapse a record's activity
array into a dict from activity type to confidence, modelled as an
association list built with overwriting insert. -/
def upsertActivity (k : String) (v : Int) : List (String × Int) → List (String × Int)
  | [] => [(k, v)]
  | (k0, v0) :: t => if k0 = k then (k0, v) :: t else (k0, v0) :: upsertActivity k v t

/-- Body of `_read_activity`: only a singleton array with an inner
`"activity"` key contributes; entries need both `"type"` and `"confidence"`. -/
def readActivity (arr : List ActivityRecord) : List (String × Int) :=
  match arr with
  | [a] =>
    match a.activity with
    | some items =>
      items.foldl
        (fun ret item =>
          match item.type, item.confidence with
          | some t, some c => upsertActivity t c ret
          | _, _ => ret)
        []
    | none => []
  | _ => []

/-- Python `str(d.get(k, ""))` on the dict built by `_read_activity`. -/
def activityGet (d : List (String × Int)) (k : String) : String :=
  match d.find? (fun p => p.1 == k) with
  | some p => toString p.2
  | none => ""

/-- Python `str(location.get(key, ""))` for an optional integer field. -/
def optStr (o : Option Int) : String :=
  match o with
  | some n => toString n
  | none => ""

/-- Serialization `json.dumps(item, separators=(",", ":"))` of the 3-field
dict built in lines 148-152 (integer-valued fields). -/
def jsonDumpsItem (ts lat lon : Int) : String :=
  "\x7b\"timestampMs\":" ++ toString ts ++
  ",\"latitudeE7\":" ++ toString lat ++
  ",\"longitudeE7\":" ++ toString lon ++ "\x7d"

/-- Function `_write_header` (lines 94-138): the text written before any
record for each format. -/
def writeHeader (format : Format) (js_variable : String) (separator : String) : String :=
  match format with
  | .json | .jsonfull => "\x7b\"locations\":["
  | .js | .jsfull => "window." ++ js_variable ++ " = " ++ "\x7b\"locations\":["
  | .csv => String.intercalate separator ["Time", "Latitude", "Longitude"] ++ "\n"
  | .csvfull =>
    String.intercalate separator
      ["Time", "Latitude", "Longitude", "Accuracy", "Altitude", "VerticalAccuracy",
       "Velocity", "Heading"] ++ "\n"
  | .csvfullest =>
    String.intercalate separator
      ["Time", "Latitude", "Longitude", "Accuracy", "Altitude", "VerticalAccuracy",
       "Velocity", "Heading", "DetectedActivties", "UNKNOWN", "STILL", "TILTING",
       "ON_FOOT", "WALKING", "RUNNING", "IN_VEHICLE", "ON_BICYCLE", "IN_ROAD_VEHICLE",
       "IN_RAIL_VEHICLE", "IN_TWO_WHEELER_VEHICLE", "IN_FOUR_WHEELER_VEHICLE"] ++ "\n"
  | .kml =>
    "<?xml version=\"1.0\" encoding=\"UTF-8\"?>\n" ++
    "<kml xmlns=\"http://www.opengis.net/kml/2.2\">\n" ++
    "  <Document>\n" ++
    "    <name>Location History</name>\n"
  | .gpx | .gpxtracks =>
    "<?xml version=\"1.0\" encoding=\"UTF-8\"?>\n" ++
    "<gpx xmlns=\"http://www.topografix.com/GPX/1/1\" version=\"1.1\"" ++
    " creator=\"Google Latitude JSON Converter\"" ++
    " xmlns:xsi=\"http://www.w3.org/2001/XMLSchema-instance\"" ++
    " xsi:schemaLocation=\"http://www.topografix.com/GPX/1/1" ++
    " http://www.topografix.com/GPX/1/1/gpx.xsd\">\n" ++
    "  <metadata>\n" ++
    "    <name>Location History</name>\n" ++
    "  </metadata>\n"

/-- Function `_write_footer` (lines 305-323): the text written after the last
record for each format; the csv formats write nothing. -/
def writeFooter (format : Format) : String :=
  match format with
  | .json | .jsonfull => "]\x7d"
  | .js | .jsfull => "]\x7d;"
  | .kml => "  </Document>\n</kml>\n"
  | .gpx => "</gpx>\n"
  | .gpxtracks => "    </trkseg>\n  </trk>\n" ++ "</gpx>\n"
  | .csv | .csvfull | .csvfullest => ""

open scoped Classical in
/-- Function `_write_location` (lines 141-302): the text written for one
record, by format. The `gpxtracks` branch compares a real-valued Haversine
distance, hence the classical `if`. -/
noncomputable def writeLocation (ext : PyExt) (format : Format) (location : Location)
    (separator : String) (first : Bool) (last_location : Option Location) : String :=
  match format with
  | .json | .js =>
    (if first then "" else ",") ++
    jsonDumpsItem (getTs location) (getLat location) (getLon location)
  | .jsonfull | .jsfull =>
    (if first then "" else ",") ++ ext.dumpsFull location
  | .csv =>
    String.intercalate separator
      [ext.strftime ("%Y-%m-%d %H:%M:%S") (getTs location),
       ext.fixed8 (q7 (getLat location)),
       ext.fixed8 (q7 (getLon location))] ++ "\n"
  | .csvfull =>
    String.intercalate separator
      [ext.strftime ("%Y-%m-%d %H:%M:%S") (getTs location),
       ext.fixed8 (q7 (getLat location)),
       ext.fixed8 (q7 (getLon location)),
       optStr location.accuracy,
       optStr location.altitude,
       optStr location.verticalAccuracy,
       optStr location.velocity,
       optStr location.heading] ++ "\n"
  | .csvfullest =>
    String.intercalate separator
      [ext.strftime ("%Y-%m-%d %H:%M:%S") (getTs location),
       ext.fixed8 (q7 (getLat location)),
       ext.fixed8 (q7 (getLon location)),
       optStr location.accuracy,
       optStr location.altitude,
       optStr location.verticalAccuracy,
       optStr location.velocity,
       optStr location.heading] ++ separator ++
    (match location.activity with
     | some arr =>
       let a := readActivity arr
       String.intercalate separator
         [toString a.length,
          activityGet a ("UNKNOWN"), activityGet a ("STILL"), activityGet a ("TILTING"),
          activityGet a ("ON_FOOT"), activityGet a ("WALKING"), activityGet a ("RUNNING"),
          activityGet a ("IN_VEHICLE"), activityGet a ("ON_BICYCLE"),
          activityGet a ("IN_ROAD_VEHICLE"), activityGet a ("IN_RAIL_VEHICLE"),
          activityGet a ("IN_TWO_WHEELER_VEHICLE"),
          activityGet a ("IN_FOUR_WHEELER_VEHICLE")] ++ "\n"
     | none => "0" ++ String.intercalate separator (List.replicate 13 "") ++ "\n")
  | .kml =>
    "    <Placemark>\n" ++
    "      <TimeStamp><when>" ++
    ext.strftime ("%Y-%m-%dT%H:%M:%SZ") (getTs location) ++
    "</when></TimeStamp>\n" ++
    (if location.accuracy.isSome ∨ location.speed.isSome ∨ location.altitude.isSome then
      "      <ExtendedData>\n" ++
      (match location.accuracy with
       | some a =>
         "        <Data name=\"accuracy\">\n" ++
         "          <value>" ++ toString a ++ "</value>\n" ++
         "        </Data>\n"
       | none => "") ++
      (match location.speed with
       | some s =>
         "        <Data name=\"speed\">\n" ++
         "          <value>" ++ toString s ++ "</value>\n" ++
         "        </Data>\n"
       | none => "") ++
      (match location.altitude with
       | some alt =>
         "        <Data name=\"altitude\">\n" ++
         "          <value>" ++ toString alt ++ "</value>\n" ++
         "        </Data>\n"
       | none => "") ++
      "      </ExtendedData>\n"
     else "") ++
    "      <Point><coordinates>" ++ ext.floatStr (q7 (getLon location)) ++ "," ++
    ext.floatStr (q7 (getLat location)) ++ "</coordinates></Point>\n" ++
    "    </Placemark>\n"
  | .gpx =>
    "  <wpt lat=\"" ++ ext.floatStr (q7 (getLat location)) ++ "\" lon=\"" ++
    ext.floatStr (q7 (getLon location)) ++ "\">\n" ++
    (match location.altitude with
     | some alt => "    <ele>" ++ toString alt ++ "</ele>\n"
     | none => "") ++
    "    <time>" ++ ext.strftime ("%Y-%m-%dT%H:%M:%SZ") (getTs location) ++ "</time>\n" ++
    "    <desc>" ++ ext.strftime ("%Y-%m-%d %H:%M:%S") (getTs location) ++
    (if location.accuracy.isSome ∨ location.speed.isSome then
      " (" ++
      (match location.accuracy with
       | some a => "Accuracy: " ++ toString a
       | none => "") ++
      (if location.accuracy.isSome ∧ location.speed.isSome then ", " else "") ++
      (match location.speed with
       | some s => "Speed:" ++ toString s
       | none => "") ++ ")"
     else "") ++
    "</desc>\n" ++
    "  </wpt>\n"
  | .gpxtracks =>
    (if first then "  <trk>\n" ++ "    <trkseg>\n" else "") ++
    (match last_location with
     | some last =>
       if NewTrackCond location last then
         "    </trkseg>\n" ++ "  </trk>\n" ++ "  <trk>\n" ++ "    <trkseg>\n"
       else ""
     | none => "") ++
    "      <trkpt lat=\"" ++ ext.floatStr (q7 (getLat location)) ++ "\" lon=\"" ++
    ext.floatStr (q7 (getLon location)) ++ "\">\n" ++
    (match location.altitude with
     | some alt => "        <ele>" ++ toString alt ++ "</ele>\n"
     | none => "") ++
    "        <time>" ++ ext.strftime ("%Y-%m-%dT%H:%M:%SZ") (getTs location) ++ "</time>\n" ++
    (if location.accuracy.isSome ∨ location.speed.isSome then
      "        <desc>\n" ++
      (match location.accuracy with
       | some a => "          Accuracy: " ++ toString a ++ "\n"
       | none => "") ++
      (match location.speed with
       | some s => "          Speed:" ++ toString s ++ "\n"
       | none => "") ++
      "        </desc>\n"
     else "") ++
    "      </trkpt>\n"

/-- Verdict of the filter chain of the loop body (lines 379-405) on one
record: skip it (`continue`), leave the loop (`break`), raise an exception,
or emit the (normalized) record. -/
inductive ItemVerdict where
  | skip
  | breakLoop
  | raise (e : PyError)
  | emit (item : Location)

/-- Polygon filter of lines 397-398: drop when `_check_point` on the raw
coordinate fields is false; otherwise the record is normalized (lines
400-405) and emitted. -/
def classifyPolygon (opts : ConvertOpts) (item : Location) : ItemVerdict :=
  match opts.polygon with
  | some p =>
    if checkPoint p (getLat item) (getLon item) then .emit (normalizeItem item)
    else .skip
  | none => .emit (normalizeItem item)

/-- End-date filter of lines 390-395: past the end date, `break` in
chronological mode, else `continue`. -/
def classifyEnd (opts : ConvertOpts) (item : Location) : ItemVerdict :=
  match opts.endDate with
  | some ed =>
    if ed < timeOf item then
      if opts.chronological then .breakLoop else .skip
    else classifyPolygon opts item
  | none => classifyPolygon opts item

/-- Start-date filter of lines 388-389: drop when `start_date > time`. -/
def classifyStart (opts : ConvertOpts) (item : Location) : ItemVerdict :=
  match opts.startDate with
  | some sd =>
    if timeOf item < sd then .skip else classifyEnd opts item
  | none => classifyEnd opts item

/-- Accuracy filter of lines 385-386, `if "accuracy" in item and
item["accuracy"] > accuracy`: with the key present and no threshold given,
Python 3 raises `TypeError` on `int > None`. -/
def classifyAccuracy (opts : ConvertOpts) (item : Location) : ItemVerdict :=
  match item.accuracy, opts.accuracy with
  | some _, none => .raise .typeError
  | some a, some m => if m < a then .skip else classifyStart opts item
  | none, _ => classifyStart opts item

/-- Full filter chain of the loop body: completeness check of lines 379-380,
then accuracy, start date, end date and polygon checks, then normalization. -/
def classifyItem (opts : ConvertOpts) (item : Location) : ItemVerdict :=
  if item.longitudeE7 = none ∨ item.latitudeE7 = none ∨ item.timestampMs = none then
    .skip
  else classifyAccuracy opts item

/-- Mutable state of the loop of lines 374-412: the output written so far,
the `first` flag and `last_loc`. -/
structure LoopState where
  out : String
  first : Bool
  lastLoc : Option Location
deriving DecidableEq

/-- Result of running the loop: final state, the records passed to
`_write_location` during the run, the unconsumed rest of the input, and the
exception that ended the run, if any. -/
structure LoopResult where
  st : LoopState
  written : List Location
  leftover : List Location
  err : Option PyError

/-- The loop of lines 378-412 over the (possibly sorted) location list. -/
noncomputable def processLoop (ext : PyExt) (opts : ConvertOpts) :
    List Location → LoopState → LoopResult
  | [], st => ⟨st, [], [], none⟩
  | item :: rest, st =>
    match classifyItem opts item with
    | .skip => processLoop ext opts rest st
    | .breakLoop => ⟨st, [], rest, none⟩
    | .raise e => ⟨st, [], rest, some e⟩
    | .emit item' =>
      let r := processLoop ext opts rest
        ⟨st.out ++ writeLocation ext opts.format item' opts.separator st.first st.lastLoc,
         false, some item'⟩
      { r with written := item' :: r.written }

/-- Stable insertion into a list sorted ascending by `timestampMs`; an
element with an equal key is placed after the existing ones. -/
def insertTs (x : Location) : List Location → List Location
  | [] => [x]
  | y :: ys => if getTs x < getTs y then x :: y :: ys else y :: insertTs x ys

/-- Stable sort by `timestampMs`, modelling the result of Python's stable
`sorted(locations, key=lambda item: item["timestampMs"])`. -/
def sortByTs : List Location → List Location
  | [] => []
  | x :: xs => insertTs x (sortByTs xs)

/-- Line 370, `sorted(locations, key=lambda item: item["timestampMs"])`:
the key lookup raises `KeyError` when a record lacks `timestampMs`;
otherwise the list is sorted stably by timestamp. -/
def sortLocations (locs : List Location) : Except PyError (List Location) :=
  if locs.all (fun l => l.timestampMs.isSome) then .ok (sortByTs locs)
  else .error (.keyError ("timestampMs"))

/-- Observable outcome of `convert`: the text written to `output`, the
records passed to `_write_location`, the unconsumed input and the exception
that aborted the run, if any. -/
structure ConvertResult where
  out : String
  written : List Location
  leftover : List Location
  err : Option PyError

/-- Function `convert` (lines 326-415): optional sort, header, filter loop,
footer. When the sort raises, nothing has been written yet; when the loop
raises, the footer is not written. -/
noncomputable def convert (ext : PyExt) (locations : List Location)
    (opts : ConvertOpts) : ConvertResult :=
  match (if opts.chronological then sortLocations locations else .ok locations) with
  | .error e => ⟨"", [], locations, some e⟩
  | .ok locs =>
    let r := processLoop ext opts locs
      ⟨writeHeader opts.format opts.jsVariable opts.separator, true, none⟩
    match r.err with
    | some e => ⟨r.st.out, r.written, r.leftover, some e⟩
    | none => ⟨r.st.out ++ writeFooter opts.format, r.written, r.leftover, none⟩

/-- Number of occurrences of a pattern in a character list, counting one
candidate start position at a time. -/
def countSub (pat : List Char) : List Char → Nat
  | [] => 0
  | c :: t => (if pat.isPrefixOf (c :: t) then 1 else 0) + countSub pat t

/-- A document is balanced for a tag name when it has as many opening as
closing occurrences of the tag; a well-formed XML document is balanced for
every tag. -/
def TagBalanced (tag : String) (doc : String) : Prop :=
  countSub ("<" ++ tag ++ ">").data doc.data = countSub ("</" ++ tag ++ ">").data doc.data

/-- A concrete `PyExt` instance for closed witness and counterexample runs. -/
def dummyExt : PyExt :=
  ⟨fun _ _ => "", fun _ => "", fun _ => "", fun _ => ""⟩

/-- Two loop runs have the same observable emission when they agree on the
final state (hence the written text), the records emitted and the exception;
the unconsumed input may differ. -/
def SameEmission (r₁ r₂ : LoopResult) : Prop :=
  r₁.st = r₂.st ∧ r₁.written = r₂.written ∧ r₁.err = r₂.err

/-- The `a` intermediate of `_distance` (lines 82-84), extracted for proofs. -/
noncomputable def haverA (lat1 lon1 lat2 lon2 : ℝ) : ℝ :=
  Real.sin (deg2rad (lat2 - lat1) / 2) * Real.sin (deg2rad (lat2 - lat1) / 2) +
    Real.cos (deg2rad lat1) * Real.cos (deg2rad lat2) *
    Real.sin (deg2rad (lon2 - lon1) / 2) * Real.sin (deg2rad (lon2 - lon1) / 2)

/-- A box polygon around the origin: contains (lat, lon) with both
coordinates in [-1, 1] degrees. Used as a concrete polygon input. -/
def boxPoly : Polygon :=
  fun la lo => decide ((-1 : ℚ) ≤ la ∧ la ≤ 1 ∧ (-1 : ℚ) ≤ lo ∧ lo ≤ 1)

/-- A record whose raw latitude carries the 2^32 encoding overflow: the raw
value 4294967295 decodes to -1 (about -0.0000001 degrees). -/
def locOverflow : Location :=
  { latitudeE7 := some 4294967295, longitudeE7 := some 0, timestampMs := some 1000 }

/-- A plain in-range record near the origin. -/
def locOrigin : Location :=
  { latitudeE7 := some 5, longitudeE7 := some 5, timestampMs := some 1000 }

/-- A complete record carrying an accuracy value. -/
def locAcc : Location :=
  { latitudeE7 := some 100, longitudeE7 := some 200, timestampMs := some 1000,
    accuracy := some 10 }

/-- A complete record with the later of two timestamps. -/
def locT1 : Location :=
  { latitudeE7 := some 100, longitudeE7 := some 200, timestampMs := some 2000000 }

/-- A complete record with the earlier of two timestamps. -/
def locT2 : Location :=
  { latitudeE7 := some 100, longitudeE7 := some 200, timestampMs := some 1000000 }

/-- A record with every key absent. -/
def locEmpty : Location := {}

/-- A record lacking only `timestampMs`. -/
def locNoTs : Location := { latitudeE7 := some 1, longitudeE7 := some 2 }

/-- A record with a timestamp but no `longitudeE7`. -/
def locNoLon : Location := { latitudeE7 := some 1, timestampMs := some 500 }

/-- A record past the end date 500 s that also fails an accuracy threshold
of 5. -/
def locLateBad : Location :=
  { latitudeE7 := some 100, longitudeE7 := some 200, timestampMs := some 1000000,
    accuracy := some 10 }

/-- A clean record past the end date 500 s. -/
def locLate : Location :=
  { latitudeE7 := some 100, longitudeE7 := some 200, timestampMs := some 2000000 }

/-- Track example: current record at the origin, 11 minutes after the
previous one. -/
def trk11min : Location :=
  { latitudeE7 := some 0, longitudeE7 := some 0, timestampMs := some 660000 }

/-- Track example: current record at the origin, 5 minutes after the
previous one. -/
def trk5min : Location :=
  { latitudeE7 := some 0, longitudeE7 := some 0, timestampMs := some 300000 }

/-- Track example: previous record at the origin at time zero. -/
def trkPrev0 : Location :=
  { latitudeE7 := some 0, longitudeE7 := some 0, timestampMs := some 0 }

/-- Track example: previous record one degree of longitude from the origin
(about 111.2 km along the equator). -/
def trkPrev1deg : Location :=
  { latitudeE7 := some 0, longitudeE7 := some 10000000, timestampMs := some 0 }

/-- Track example: previous record 0.09 degrees of longitude from the origin
(about 10.0 km along the equator). -/
def trkPrev10km : Location :=
  { latitudeE7 := some 0, longitudeE7 := some 900000, timestampMs := some 0 }

/-- The record text of a conversion: what the loop writes between header and
footer, starting from an empty buffer, on the (sorted, in chronological mode)
input. -/
noncomputable def loopBody (ext : PyExt) (opts : ConvertOpts) (locs : List Location) : String :=
  (processLoop ext opts (if opts.chronological then sortByTs locs else locs)
    ⟨"", true, none⟩).st.out

/-- Options with an end date of 500 s, an accuracy threshold of 5 and
chronological mode, for concrete early-exit runs. -/
def optsC5 : ConvertOpts :=
  { endDate := some 500, accuracy := some 5, chronological := true }

/-! Toolkit lemmas: loop step equations, classification facts, stable-sort
facts and facts about the Haversine formula, shared by the claim theorems. -/

lemma convert_of_sort_error {opts : ConvertOpts} {locations : List Location} {e : PyError}
    (ext : PyExt)
    (h : (if opts.chronological then sortLocations locations else Except.ok locations) =
      Except.error e) :
    convert ext locations opts = ⟨"", [], locations, some e⟩ := by
  unfold convert
  rw [h]

lemma convert_proj {opts : ConvertOpts} {locations locs : List Location}
    (ext : PyExt)
    (h : (if opts.chronological then sortLocations locations else Except.ok locations) =
      Except.ok locs) :
    (convert ext locations opts).written =
      (processLoop ext opts locs
        ⟨writeHeader opts.format opts.jsVariable opts.separator, true, none⟩).written ∧
    (convert ext locations opts).err =
      (processLoop ext opts locs
        ⟨writeHeader opts.format opts.jsVariable opts.separator, true, none⟩).err ∧
    (convert ext locations opts).out =
      (processLoop ext opts locs
        ⟨writeHeader opts.format opts.jsVariable opts.separator, true, none⟩).st.out ++
      (match (processLoop ext opts locs
        ⟨writeHeader opts.format opts.jsVariable opts.separator, true, none⟩).err with
       | some _ => ""
       | none => writeFooter opts.format) ∧
    (convert ext locations opts).leftover =
      (processLoop ext opts locs
        ⟨writeHeader opts.format opts.jsVariable opts.separator, true, none⟩).leftover := by
  unfold convert
  rw [h]
  cases herr : (processLoop ext opts locs
      ⟨writeHeader opts.format opts.jsVariable opts.separator, true, none⟩).err <;>
    simp [herr, String.append_empty]

lemma processLoop_nil (ext : PyExt) (opts : ConvertOpts) (st : LoopState) :
    processLoop ext opts [] st = ⟨st, [], [], none⟩ := rfl

lemma processLoop_cons (ext : PyExt) (opts : ConvertOpts) (item : Location)
    (rest : List Location) (st : LoopState) :
    processLoop ext opts (item :: rest) st =
      match classifyItem opts item with
      | .skip => processLoop ext opts rest st
      | .breakLoop => ⟨st, [], rest, none⟩
      | .raise e => ⟨st, [], rest, some e⟩
      | .emit item' =>
        let r := processLoop ext opts rest
          ⟨st.out ++ writeLocation ext opts.format item' opts.separator st.first st.lastLoc,
           false, some item'⟩
        { r with written := item' :: r.written } := rfl

lemma processLoop_cons_skip {opts : ConvertOpts} {item : Location}
    (ext : PyExt) (h : classifyItem opts item = .skip)
    (rest : List Location) (st : LoopState) :
    processLoop ext opts (item :: rest) st = processLoop ext opts rest st := by
  rw [processLoop_cons, h]

lemma processLoop_cons_break {opts : ConvertOpts} {item : Location}
    (ext : PyExt) (h : classifyItem opts item = .breakLoop)
    (rest : List Location) (st : LoopState) :
    processLoop ext opts (item :: rest) st = ⟨st, [], rest, none⟩ := by
  rw [processLoop_cons, h]

lemma processLoop_cons_raise {opts : ConvertOpts} {item : Location} {e : PyError}
    (ext : PyExt) (h : classifyItem opts item = .raise e)
    (rest : List Location) (st : LoopState) :
    processLoop ext opts (item :: rest) st = ⟨st, [], rest, some e⟩ := by
  rw [processLoop_cons, h]

lemma processLoop_cons_emit {opts : ConvertOpts} {item item' : Location}
    (ext : PyExt) (h : classifyItem opts item = .emit item')
    (rest : List Location) (st : LoopState) :
    processLoop ext opts (item :: rest) st =
      (fun r => { r with written := item' :: r.written })
        (processLoop ext opts rest
          ⟨st.out ++ writeLocation ext opts.format item' opts.separator st.first st.lastLoc,
           false, some item'⟩) := by
  rw [processLoop_cons, h]

lemma classifyItem_incomplete {item : Location} (opts : ConvertOpts)
    (h : item.longitudeE7 = none ∨ item.latitudeE7 = none ∨ item.timestampMs = none) :
    classifyItem opts item = .skip := by
  unfold classifyItem
  rw [if_pos h]

lemma classifyItem_emit_norm {opts : ConvertOpts} {item item' : Location}
    (h : classifyItem opts item = .emit item') : item' = normalizeItem item := by
  unfold classifyItem classifyAccuracy classifyStart classifyEnd classifyPolygon at h
  repeat' split at h
  all_goals simp_all

lemma getTs_normalizeItem (item : Location) : getTs (normalizeItem item) = getTs item := rfl

lemma processLoop_skip_middle {opts : ConvertOpts} {bad : Location}
    (ext : PyExt) (h : classifyItem opts bad = .skip) :
    ∀ (A B : List Location) (st : LoopState),
      SameEmission (processLoop ext opts (A ++ bad :: B) st)
        (processLoop ext opts (A ++ B) st)
  | [], B, st => by
    rw [List.nil_append, List.nil_append, processLoop_cons_skip ext h]
    exact ⟨rfl, rfl, rfl⟩
  | a :: A, B, st => by
    rw [List.cons_append, List.cons_append, processLoop_cons, processLoop_cons]
    match hc : classifyItem opts a with
    | .skip => exact processLoop_skip_middle ext h A B st
    | .breakLoop => exact ⟨rfl, rfl, rfl⟩
    | .raise e => exact ⟨rfl, rfl, rfl⟩
    | .emit a' =>
      obtain ⟨h1, h2, h3⟩ := processLoop_skip_middle ext h A B
        ⟨st.out ++ writeLocation ext opts.format a' opts.separator st.first st.lastLoc,
         false, some a'⟩
      exact ⟨h1, by simpa using congrArg (a' :: ·) h2, h3⟩

lemma processLoop_out_extend (ext : PyExt) (opts : ConvertOpts) :
    ∀ (l : List Location) (st : LoopState),
      (processLoop ext opts l st).st.out =
        st.out ++ (processLoop ext opts l ⟨"", st.first, st.lastLoc⟩).st.out
  | [], st => by
    rw [processLoop_nil, processLoop_nil, String.append_empty]
  | item :: rest, st => by
    rw [processLoop_cons, processLoop_cons]
    match hc : classifyItem opts item with
    | .skip => exact processLoop_out_extend ext opts rest st
    | .breakLoop => exact (String.append_empty _).symm
    | .raise e => exact (String.append_empty _).symm
    | .emit item' =>
      show (processLoop ext opts rest _).st.out = st.out ++ (processLoop ext opts rest _).st.out
      rw [processLoop_out_extend ext opts rest
        ⟨st.out ++ writeLocation ext opts.format item' opts.separator st.first st.lastLoc,
         false, some item'⟩,
        processLoop_out_extend ext opts rest
        ⟨"" ++ writeLocation ext opts.format item' opts.separator st.first st.lastLoc,
         false, some item'⟩]
      rw [String.empty_append, String.append_assoc]

lemma written_ts_sublist (ext : PyExt) (opts : ConvertOpts) :
    ∀ (l : List Location) (st : LoopState),
      ((processLoop ext opts l st).written.map getTs).Sublist (l.map getTs)
  | [], st => by
    rw [processLoop_nil]
  | item :: rest, st => by
    rw [processLoop_cons]
    match hc : classifyItem opts item with
    | .skip => exact (written_ts_sublist ext opts rest st).cons (getTs item)
    | .breakLoop => exact List.nil_sublist _
    | .raise e => exact List.nil_sublist _
    | .emit item' =>
      show ((item' :: (processLoop ext opts rest _).written).map getTs).Sublist _
      rw [List.map_cons, classifyItem_emit_norm hc, getTs_normalizeItem, List.map_cons]
      exact (written_ts_sublist ext opts rest _).cons₂ (getTs item)

lemma mem_insertTs {b x : Location} :
    ∀ {l : List Location}, b ∈ insertTs x l → b = x ∨ b ∈ l
  | [], h => by
    simpa [insertTs] using h
  | y :: ys, h => by
    unfold insertTs at h
    split at h
    · simpa using h
    · rcases List.mem_cons.mp h with rfl | h
      · exact Or.inr (List.mem_cons_self _ _)
      · rcases mem_insertTs h with rfl | h
        · exact Or.inl rfl
        · exact Or.inr (List.mem_cons_of_mem _ h)

lemma insertTs_sorted {l : List Location} (x : Location)
    (h : l.Pairwise (fun a b => getTs a ≤ getTs b)) :
    (insertTs x l).Pairwise (fun a b => getTs a ≤ getTs b) := by
  induction l with
  | nil => simp [insertTs]
  | cons y ys ih =>
    rw [List.pairwise_cons] at h
    unfold insertTs
    split
    · rename_i hlt
      refine List.pairwise_cons.mpr ⟨?_, List.pairwise_cons.mpr h⟩
      intro b hb
      rcases List.mem_cons.mp hb with rfl | hb
      · exact le_of_lt hlt
      · exact le_trans (le_of_lt hlt) (h.1 b hb)
    · rename_i hge
      refine List.pairwise_cons.mpr ⟨?_, ih h.2⟩
      intro b hb
      rcases mem_insertTs hb with rfl | hb
      · exact le_of_not_lt hge
      · exact h.1 b hb

lemma sortByTs_sorted : ∀ l : List Location,
    (sortByTs l).Pairwise (fun a b => getTs a ≤ getTs b)
  | [] => List.Pairwise.nil
  | x :: xs => insertTs_sorted x (sortByTs_sorted xs)

lemma insertTs_decomp (b : Location) :
    ∀ l : List Location, ∃ C D, insertTs b l = C ++ b :: D ∧ C ++ D = l
  | [] => ⟨[], [], rfl, rfl⟩
  | y :: ys => by
    unfold insertTs
    split
    · exact ⟨[], y :: ys, rfl, rfl⟩
    · obtain ⟨C, D, h1, h2⟩ := insertTs_decomp b ys
      exact ⟨y :: C, D, by rw [List.cons_append, h1], by rw [List.cons_append, h2]⟩

lemma insertTs_cons (x y : Location) (ys : List Location) :
    insertTs x (y :: ys) =
      if getTs x < getTs y then x :: y :: ys else y :: insertTs x ys := rfl

lemma insertTs_middle (a : Location) :
    ∀ (C : List Location) (b : Location) (D : List Location),
      (C ++ b :: D).Pairwise (fun u v => getTs u ≤ getTs v) →
      ∃ C2 D2, insertTs a (C ++ b :: D) = C2 ++ b :: D2 ∧ insertTs a (C ++ D) = C2 ++ D2
  | [], b, D, hs => by
    rw [List.nil_append, List.nil_append, insertTs_cons]
    by_cases hlt : getTs a < getTs b
    · rw [if_pos hlt]
      refine ⟨[a], D, rfl, ?_⟩
      match D with
      | [] => rfl
      | d :: ds =>
        have hbd : getTs b ≤ getTs d :=
          (List.pairwise_cons.mp hs).1 d (by simp)
        rw [insertTs_cons, if_pos (lt_of_lt_of_le hlt hbd)]
        rfl
    · rw [if_neg hlt]
      exact ⟨[], insertTs a D, rfl, rfl⟩
  | c :: C, b, D, hs => by
    rw [List.cons_append, List.cons_append, insertTs_cons, insertTs_cons]
    by_cases hac : getTs a < getTs c
    · rw [if_pos hac, if_pos hac]
      exact ⟨a :: c :: C, D, rfl, rfl⟩
    · rw [if_neg hac, if_neg hac]
      obtain ⟨C2, D2, h1, h2⟩ :=
        insertTs_middle a C b D (List.pairwise_cons.mp hs).2
      exact ⟨c :: C2, D2, by rw [h1]; rfl, by rw [h2]; rfl⟩

lemma sortByTs_middle :
    ∀ (A : List Location) (b : Location) (B : List Location),
      ∃ C D, sortByTs (A ++ b :: B) = C ++ b :: D ∧ sortByTs (A ++ B) = C ++ D
  | [], b, B => by
    rw [List.nil_append, List.nil_append]
    show ∃ C D, insertTs b (sortByTs B) = C ++ b :: D ∧ sortByTs B = C ++ D
    obtain ⟨C, D, h1, h2⟩ := insertTs_decomp b (sortByTs B)
    exact ⟨C, D, h1, h2.symm⟩
  | a :: A, b, B => by
    rw [List.cons_append, List.cons_append]
    show ∃ C D, insertTs a (sortByTs (A ++ b :: B)) = C ++ b :: D ∧
      insertTs a (sortByTs (A ++ B)) = C ++ D
    obtain ⟨C, D, h1, h2⟩ := sortByTs_middle A b B
    have hsorted : (C ++ b :: D).Pairwise (fun u v => getTs u ≤ getTs v) := by
      rw [← h1]; exact sortByTs_sorted _
    obtain ⟨C2, D2, h3, h4⟩ := insertTs_middle a C b D hsorted
    exact ⟨C2, D2, by rw [h1, h3], by rw [h2, h4]⟩

lemma distance_haverA (lat1 lon1 lat2 lon2 : ℝ) :
    distance lat1 lon1 lat2 lon2 =
      6371 * (2 * atan2 (Real.sqrt (haverA lat1 lon1 lat2 lon2))
        (Real.sqrt (1 - haverA lat1 lon1 lat2 lon2))) := rfl

lemma haverA_comm (lat1 lon1 lat2 lon2 : ℝ) :
    haverA lat1 lon1 lat2 lon2 = haverA lat2 lon2 lat1 lon1 := by
  unfold haverA
  have h1 : deg2rad (lat1 - lat2) / 2 = -(deg2rad (lat2 - lat1) / 2) := by
    unfold deg2rad; ring
  have h2 : deg2rad (lon1 - lon2) / 2 = -(deg2rad (lon2 - lon1) / 2) := by
    unfold deg2rad; ring
  rw [h1, h2]
  simp only [Real.sin_neg]
  ring

lemma haverA_self (lat lon : ℝ) : haverA lat lon lat lon = 0 := by
  unfold haverA deg2rad
  simp

lemma atan2_sin_cos {θ : ℝ} (h : θ ∈ Set.Ioc (-Real.pi) Real.pi) :
    atan2 (Real.sin θ) (Real.cos θ) = θ := by
  unfold atan2
  rw [Complex.mk_eq_add_mul_I, Complex.ofReal_cos, Complex.ofReal_sin]
  exact Complex.arg_cos_add_sin_mul_I h

lemma atan2_zero_one : atan2 0 1 = 0 := by
  unfold atan2
  rw [show (⟨1, 0⟩ : ℂ) = 1 from by apply Complex.ext <;> simp]
  exact Complex.arg_one

lemma distance_self (lat lon : ℝ) : distance lat lon lat lon = 0 := by
  rw [distance_haverA, haverA_self, Real.sqrt_zero, sub_zero, Real.sqrt_one,
    atan2_zero_one]
  ring

lemma distance_comm (lat1 lon1 lat2 lon2 : ℝ) :
    distance lat1 lon1 lat2 lon2 = distance lat2 lon2 lat1 lon1 := by
  rw [distance_haverA, distance_haverA, haverA_comm]

lemma haverA_equator (x : ℝ) :
    haverA 0 0 0 x =
      Real.sin (x * (Real.pi / 180) / 2) * Real.sin (x * (Real.pi / 180) / 2) := by
  unfold haverA deg2rad
  simp

lemma distance_equator (x : ℝ) (h0 : 0 ≤ x) (h180 : x ≤ 180) :
    distance 0 0 0 x = 6371 * (x * Real.pi / 180) := by
  have hπ : (0 : ℝ) < Real.pi := Real.pi_pos
  have hfrac : (0 : ℝ) < Real.pi / 180 := by positivity
  have hθ0 : 0 ≤ x * (Real.pi / 180) / 2 := by
    have := mul_nonneg h0 (le_of_lt hfrac)
    linarith
  have hθhalf : x * (Real.pi / 180) / 2 ≤ Real.pi / 2 := by
    have : x * (Real.pi / 180) ≤ 180 * (Real.pi / 180) :=
      mul_le_mul_of_nonneg_right h180 (le_of_lt hfrac)
    have h180pi : (180 : ℝ) * (Real.pi / 180) = Real.pi := by ring
    linarith
  have hsin : 0 ≤ Real.sin (x * (Real.pi / 180) / 2) :=
    Real.sin_nonneg_of_nonneg_of_le_pi hθ0 (by linarith)
  have hcos : 0 ≤ Real.cos (x * (Real.pi / 180) / 2) :=
    Real.cos_nonneg_of_mem_Icc ⟨by linarith, hθhalf⟩
  have h1A : 1 - Real.sin (x * (Real.pi / 180) / 2) * Real.sin (x * (Real.pi / 180) / 2) =
      Real.cos (x * (Real.pi / 180) / 2) * Real.cos (x * (Real.pi / 180) / 2) := by
    have h := Real.sin_sq_add_cos_sq (x * (Real.pi / 180) / 2)
    rw [pow_two, pow_two] at h
    linarith
  rw [distance_haverA, haverA_equator, Real.sqrt_mul_self hsin, h1A,
    Real.sqrt_mul_self hcos, atan2_sin_cos ⟨by linarith, by linarith⟩]
  ring

lemma classifyItem_pass_to_end (opts : ConvertOpts) (item : Location)
    (hlat : item.latitudeE7.isSome = true) (hlon : item.longitudeE7.isSome = true)
    (hts : item.timestampMs.isSome = true)
    (hacc : ∀ a, item.accuracy = some a → ∃ m, opts.accuracy = some m ∧ a ≤ m)
    (hstart : ∀ sd, opts.startDate = some sd → sd ≤ timeOf item) :
    classifyItem opts item = classifyEnd opts item := by
  have hcomplete :
      ¬ (item.longitudeE7 = none ∨ item.latitudeE7 = none ∨ item.timestampMs = none) := by
    rintro (h | h | h) <;> simp [h] at hlat hlon hts
  have hstep : classifyStart opts item = classifyEnd opts item := by
    unfold classifyStart
    cases hS : opts.startDate with
    | none => rfl
    | some sd =>
      show (if timeOf item < sd then ItemVerdict.skip else classifyEnd opts item) =
        classifyEnd opts item
      rw [if_neg (not_lt.mpr (hstart sd hS))]
  unfold classifyItem
  rw [if_neg hcomplete]
  unfold classifyAccuracy
  cases hA : item.accuracy with
  | none => exact hstep
  | some a =>
    obtain ⟨m, hm, ham⟩ := hacc a hA
    rw [hm]
    show (if m < a then ItemVerdict.skip else classifyStart opts item) = _
    rw [if_neg (not_lt.mpr ham), hstep]

/-! Claim theorems. -/

/-- C2 (counterexample): normalization is not idempotent on every integer.
At x = 8589934592 (= 2 * 2^32) the first application yields 4294967296,
which still exceeds 1800000000, so a second application subtracts again. -/
theorem C2_counterexample :
    ¬ normalizeCoord (normalizeCoord 8589934592) = normalizeCoord 8589934592 := by
  decide

/-- C2 (amended): normalization, exactly as coded in lines 402-405, is
idempotent precisely on the integers not exceeding 6094967296
(= 1800000000 + 2^32); below that bound the corrected value is at most
1800000000 and a second application is the identity, above it a second
subtraction always occurs. -/
theorem C2_normalize_idempotent_iff (x : ℤ) :
    normalizeCoord (normalizeCoord x) = normalizeCoord x ↔ x ≤ 6094967296 := by
  unfold normalizeCoord
  split_ifs <;> omega

/-- C9: the Haversine distance of `_distance` (lines 76-87) is symmetric in
its two coordinate pairs and vanishes on the diagonal. -/
theorem C9_distance_symm_diag :
    (∀ lat1 lon1 lat2 lon2 : ℝ,
      distance lat1 lon1 lat2 lon2 = distance lat2 lon2 lat1 lon1) ∧
    (∀ lat lon : ℝ, distance lat lon lat lon = 0) :=
  ⟨distance_comm, distance_self⟩

/-- C3 (code exhibit): with no maximum-accuracy threshold (`accuracy=None`,
the default) and a complete record carrying an accuracy value, line 385
evaluates `item["accuracy"] > None`, a Python 3 `TypeError`: the conversion
aborts after the header, instead of keeping the record as documented. -/
theorem C3_accuracy_none_crash :
    (convert dummyExt [locAcc] {}).err = some PyError.typeError ∧
    (convert dummyExt [locAcc] {}).out = writeHeader .kml ("locationJsonData") (",") ∧
    (convert dummyExt [locAcc] {}).written = [] := by
  refine ⟨rfl, rfl, rfl⟩

/-- C10: in chronological mode a record lacking `timestampMs` makes the sort
of line 370 raise `KeyError` before the header or any other output is
written, while outside chronological mode such a record is silently skipped
by the completeness check of line 379 with unchanged output, emissions and
exception state. -/
theorem C10_chronological_missing_ts :
    (∀ (ext : PyExt) (opts : ConvertOpts) (locs : List Location) (r : Location),
      opts.chronological = true → r ∈ locs → r.timestampMs = none →
      convert ext locs opts = ⟨"", [], locs, some (PyError.keyError ("timestampMs"))⟩) ∧
    (∀ (ext : PyExt) (opts : ConvertOpts) (bad : Location) (A B : List Location)
      (st : LoopState), bad.timestampMs = none →
      SameEmission (processLoop ext opts (A ++ bad :: B) st)
        (processLoop ext opts (A ++ B) st)) := by
  constructor
  · intro ext opts locs r hc hmem hts
    have hall : locs.all (fun l => l.timestampMs.isSome) = false := by
      rw [List.all_eq_false]
      exact ⟨r, hmem, by simp [hts]⟩
    refine convert_of_sort_error ext ?_
    rw [hc, if_pos rfl]
    unfold sortLocations
    rw [hall]
    rfl
  · intro ext opts bad A B st hts
    exact processLoop_skip_middle ext
      (classifyItem_incomplete opts (Or.inr (Or.inr hts))) A B st

/-- C10 (witness): a concrete record without `timestampMs` aborts a
chronological conversion with `KeyError` and empty output, and is skipped
without trace in a non-chronological loop. -/
theorem C10_witness :
    convert dummyExt [locNoTs] { chronological := true } =
      ⟨"", [], [locNoTs], some (PyError.keyError ("timestampMs"))⟩ ∧
    SameEmission (processLoop dummyExt {} ([] ++ locNoTs :: []) ⟨"", true, none⟩)
      (processLoop dummyExt {} ([] ++ []) ⟨"", true, none⟩) :=
  ⟨C10_chronological_missing_ts.1 dummyExt { chronological := true } [locNoTs] locNoTs
      rfl (List.mem_singleton.mpr rfl) rfl,
   C10_chronological_missing_ts.2 dummyExt {} locNoTs [] [] ⟨"", true, none⟩ rfl⟩

/-- C8 (counterexample): a record missing `latitudeE7` and `longitudeE7` is
not always skipped silently: when it also lacks `timestampMs` and
chronological mode is on, the sort key lookup raises `KeyError` instead of
producing output. -/
theorem C8_counterexample :
    (convert dummyExt [locEmpty] { chronological := true }).err =
      some (PyError.keyError ("timestampMs")) := rfl

/-- C8 (amended): a record missing `latitudeE7` or `longitudeE7` is skipped
silently — removed from the input it changes neither the written text nor
the emitted records nor the exception state — provided the sort does not
fail first: in chronological mode this needs the record to still carry
`timestampMs` (stability of the sort keeps the other records in the same
order). -/
theorem C8_incomplete_skipped (ext : PyExt) (opts : ConvertOpts) (bad : Location)
    (hbad : bad.latitudeE7 = none ∨ bad.longitudeE7 = none)
    (A B : List Location)
    (hsafe : opts.chronological = false ∨ bad.timestampMs.isSome = true) :
    (convert ext (A ++ bad :: B) opts).out = (convert ext (A ++ B) opts).out ∧
    (convert ext (A ++ bad :: B) opts).written = (convert ext (A ++ B) opts).written ∧
    (convert ext (A ++ bad :: B) opts).err = (convert ext (A ++ B) opts).err := by
  have hskip : classifyItem opts bad = .skip :=
    classifyItem_incomplete opts
      (hbad.elim (fun h => Or.inr (Or.inl h)) Or.inl)
  have assemble : ∀ (l₁ l₂ : List Location),
      (if opts.chronological then sortLocations (A ++ bad :: B)
        else Except.ok (A ++ bad :: B)) = Except.ok l₁ →
      (if opts.chronological then sortLocations (A ++ B)
        else Except.ok (A ++ B)) = Except.ok l₂ →
      SameEmission
        (processLoop ext opts l₁
          ⟨writeHeader opts.format opts.jsVariable opts.separator, true, none⟩)
        (processLoop ext opts l₂
          ⟨writeHeader opts.format opts.jsVariable opts.separator, true, none⟩) →
      (convert ext (A ++ bad :: B) opts).out = (convert ext (A ++ B) opts).out ∧
      (convert ext (A ++ bad :: B) opts).written = (convert ext (A ++ B) opts).written ∧
      (convert ext (A ++ bad :: B) opts).err = (convert ext (A ++ B) opts).err := by
    intro l₁ l₂ h₁ h₂ hsame
    obtain ⟨hw1, he1, ho1, -⟩ := convert_proj ext h₁
    obtain ⟨hw2, he2, ho2, -⟩ := convert_proj ext h₂
    obtain ⟨hst, hwr, herr⟩ := hsame
    refine ⟨?_, ?_, ?_⟩
    · rw [ho1, ho2, hst, herr]
    · rw [hw1, hw2, hwr]
    · rw [he1, he2, herr]
  cases hchron : opts.chronological with
  | false =>
    exact assemble (A ++ bad :: B) (A ++ B)
      (by rw [hchron, if_neg (by simp)])
      (by rw [hchron, if_neg (by simp)])
      (processLoop_skip_middle ext hskip A B _)
  | true =>
    have hts : bad.timestampMs.isSome = true := by
      rcases hsafe with h | h
      · rw [hchron] at h; cases h
      · exact h
    cases hall : (A ++ B).all (fun l => l.timestampMs.isSome) with
    | false =>
      have hall2 : (A ++ bad :: B).all (fun l => l.timestampMs.isSome) = false := by
        rw [List.all_eq_false] at hall ⊢
        obtain ⟨x, hx, hpx⟩ := hall
        refine ⟨x, ?_, hpx⟩
        rcases List.mem_append.mp hx with h | h
        · exact List.mem_append.mpr (Or.inl h)
        · exact List.mem_append.mpr (Or.inr (List.mem_cons_of_mem _ h))
      have e1 : convert ext (A ++ bad :: B) opts =
          ⟨"", [], A ++ bad :: B, some (PyError.keyError ("timestampMs"))⟩ := by
        refine convert_of_sort_error ext ?_
        rw [hchron, if_pos rfl]
        unfold sortLocations
        rw [hall2]
        rfl
      have e2 : convert ext (A ++ B) opts =
          ⟨"", [], A ++ B, some (PyError.keyError ("timestampMs"))⟩ := by
        refine convert_of_sort_error ext ?_
        rw [hchron, if_pos rfl]
        unfold sortLocations
        rw [hall]
        rfl
      rw [e1, e2]
      exact ⟨rfl, rfl, rfl⟩
    | true =>
      have hall2 : (A ++ bad :: B).all (fun l => l.timestampMs.isSome) = true := by
        rw [List.all_eq_true] at hall ⊢
        intro x hx
        rcases List.mem_append.mp hx with h | h
        · exact hall x (List.mem_append.mpr (Or.inl h))
        · rcases List.mem_cons.mp h with rfl | h
          · exact hts
          · exact hall x (List.mem_append.mpr (Or.inr h))
      obtain ⟨C, D, hCD1, hCD2⟩ := sortByTs_middle A bad B
      refine assemble (sortByTs (A ++ bad :: B)) (sortByTs (A ++ B))
        (by rw [hchron, if_pos rfl]; unfold sortLocations; rw [hall2]; rfl)
        (by rw [hchron, if_pos rfl]; unfold sortLocations; rw [hall]; rfl)
        ?_
      rw [hCD1, hCD2]
      exact processLoop_skip_middle ext hskip C D _

/-- C8 (witness): removing a concrete record that has a timestamp but no
longitude changes nothing observable about a chronological conversion. -/
theorem C8_witness :
    (convert dummyExt ([locT1] ++ locNoLon :: [locT2]) { chronological := true }).out =
      (convert dummyExt ([locT1] ++ [locT2]) { chronological := true }).out ∧
    (convert dummyExt ([locT1] ++ locNoLon :: [locT2]) { chronological := true }).written =
      (convert dummyExt ([locT1] ++ [locT2]) { chronological := true }).written ∧
    (convert dummyExt ([locT1] ++ locNoLon :: [locT2]) { chronological := true }).err =
      (convert dummyExt ([locT1] ++ [locT2]) { chronological := true }).err := by
  refine C8_incomplete_skipped dummyExt { chronological := true } locNoLon ?_ [locT1] [locT2] ?_
  · exact Or.inr rfl
  · exact Or.inr rfl

/-- C6 (counterexample): an empty input in track-markup format does not
produce a well-formed document: no record was written, so no `<trkseg>` was
ever opened, yet the footer of lines 318-322 closes one — the output has a
`</trkseg>` occurrence but no `<trkseg>` occurrence. -/
theorem C6_counterexample :
    (convert dummyExt [] { format := .gpxtracks }).written = [] ∧
    ¬ TagBalanced ("trkseg") (convert dummyExt [] { format := .gpxtracks }).out := by
  constructor
  · rfl
  · unfold TagBalanced
    decide

/-- C6 (amended): whenever `convert` finishes without raising, the output is
exactly header, then the record text of the loop, then the footer appended
once; an empty input yields exactly header plus footer with no record
emitted, for every format — but for `gpxtracks` that document is not
well-formed (the footer closes a track segment that was never opened). -/
theorem C6_header_body_footer (ext : PyExt) (opts : ConvertOpts) (locs : List Location)
    (h : (convert ext locs opts).err = none) :
    (convert ext locs opts).out =
      writeHeader opts.format opts.jsVariable opts.separator ++ loopBody ext opts locs ++
        writeFooter opts.format ∧
    (locs = [] → loopBody ext opts locs = "" ∧ (convert ext locs opts).written = []) := by
  have main : ∀ l : List Location,
      (if opts.chronological then sortLocations locs else Except.ok locs) = Except.ok l →
      l = (if opts.chronological then sortByTs locs else locs) →
      (convert ext locs opts).out =
        writeHeader opts.format opts.jsVariable opts.separator ++ loopBody ext opts locs ++
          writeFooter opts.format ∧
      (convert ext locs opts).written =
        (processLoop ext opts l
          ⟨writeHeader opts.format opts.jsVariable opts.separator, true, none⟩).written := by
    intro l hok hl
    obtain ⟨hw, he, ho, -⟩ := convert_proj ext hok
    rw [he] at h
    refine ⟨?_, hw⟩
    rw [ho, h]
    rw [processLoop_out_extend ext opts l
      ⟨writeHeader opts.format opts.jsVariable opts.separator, true, none⟩]
    unfold loopBody
    rw [← hl, String.append_assoc]
  cases hchron : opts.chronological with
  | false =>
    have hok : (if opts.chronological then sortLocations locs else Except.ok locs) =
        Except.ok locs := by rw [hchron, if_neg (by simp)]
    obtain ⟨h1, h2⟩ := main locs hok (by rw [hchron, if_neg (by simp)])
    refine ⟨h1, ?_⟩
    rintro rfl
    constructor
    · unfold loopBody
      rw [hchron, if_neg (by simp), processLoop_nil]
    · rw [h2, processLoop_nil]
  | true =>
    cases hall : locs.all (fun l => l.timestampMs.isSome) with
    | false =>
      exfalso
      have : convert ext locs opts = ⟨"", [], locs, some (PyError.keyError ("timestampMs"))⟩ := by
        refine convert_of_sort_error ext ?_
        rw [hchron, if_pos rfl]
        unfold sortLocations
        rw [hall]
        rfl
      rw [this] at h
      cases h
    | true =>
      have hok : (if opts.chronological then sortLocations locs else Except.ok locs) =
          Except.ok (sortByTs locs) := by
        rw [hchron, if_pos rfl]
        unfold sortLocations
        rw [hall]
        rfl
      obtain ⟨h1, h2⟩ := main (sortByTs locs) hok (by rw [hchron, if_pos rfl])
      refine ⟨h1, ?_⟩
      rintro rfl
      constructor
      · unfold loopBody
        rw [hchron, if_pos rfl]
        show (processLoop ext opts [] ⟨"", true, none⟩).st.out = ""
        rw [processLoop_nil]
      · rw [h2]
        show (processLoop ext opts [] _).written = []
        rw [processLoop_nil]

/-- C6 (witness): a concrete clean empty run decomposes into header plus
empty record text plus footer, with nothing emitted. -/
theorem C6_witness :
    (convert dummyExt [] ({} : ConvertOpts)).out =
      writeHeader ({} : ConvertOpts).format ({} : ConvertOpts).jsVariable
        ({} : ConvertOpts).separator ++ loopBody dummyExt {} [] ++
        writeFooter ({} : ConvertOpts).format ∧
    (([] : List Location) = [] → loopBody dummyExt {} [] = "" ∧
      (convert dummyExt [] ({} : ConvertOpts)).written = []) :=
  C6_header_body_footer dummyExt {} [] rfl

/-- C4 (counterexample): `gpxtracks` output does not by itself force
sorting: with `chronological=False` two out-of-order records are emitted in
input order, with decreasing timestamps. -/
theorem C4_counterexample :
    ((convert dummyExt [locT1, locT2] { format := .gpxtracks }).written.map getTs) =
      [2000000, 1000000] ∧
    ¬ (([2000000, 1000000] : List ℤ).Pairwise (· ≤ ·)) := by
  constructor
  · decide
  · decide

/-- C4 (amended): only the `chronological` flag triggers the sort of line
370 (the `gpxtracks` format does not); when it is set, the input is
materialized and stably sorted ascending by `timestampMs` before the filter
loop, so the emitted records carry non-decreasing timestamps. -/
theorem C4_chronological_sorted (ext : PyExt) (locs : List Location) (opts : ConvertOpts)
    (h : opts.chronological = true) :
    ((convert ext locs opts).written.map getTs).Pairwise (· ≤ ·) := by
  cases hall : locs.all (fun l => l.timestampMs.isSome) with
  | false =>
    have : convert ext locs opts = ⟨"", [], locs, some (PyError.keyError ("timestampMs"))⟩ := by
      refine convert_of_sort_error ext ?_
      rw [h, if_pos rfl]
      unfold sortLocations
      rw [hall]
      rfl
    rw [this]
    exact List.Pairwise.nil
  | true =>
    have hok : (if opts.chronological then sortLocations locs else Except.ok locs) =
        Except.ok (sortByTs locs) := by
      rw [h, if_pos rfl]
      unfold sortLocations
      rw [hall]
      rfl
    obtain ⟨hw, he, ho, -⟩ := convert_proj ext hok
    rw [hw]
    refine List.Pairwise.sublist (written_ts_sublist ext opts (sortByTs locs) _) ?_
    exact (List.pairwise_map).mpr (sortByTs_sorted locs)

/-- C4 (witness): a concrete chronological run emits records with
non-decreasing timestamps. -/
theorem C4_witness :
    ((convert dummyExt [locT1, locT2] { chronological := true }).written.map
      getTs).Pairwise (· ≤ ·) :=
  C4_chronological_sorted dummyExt [locT1, locT2] { chronological := true } rfl

/-- C5 (counterexample): the first record whose timestamp exceeds the end
date does not always stop the pipeline. Here the first late record
(`locLateBad`, past the end date but failing the accuracy threshold) is
dropped by the accuracy check of line 385 before the end-date check runs, so
the loop goes on and consumes the following record too: nothing is left
unconsumed, where the claim predicts the run stops at the first late
record. -/
theorem C5_counterexample :
    (convert dummyExt [locLateBad, locLate] optsC5).leftover = [] ∧
    (convert dummyExt [locLateBad, locLate] optsC5).written = [] ∧
    (convert dummyExt [locLateBad, locLate] optsC5).err = none := by
  have hskip : classifyItem optsC5 locLateBad = .skip := rfl
  have hbreak : classifyItem optsC5 locLate = .breakLoop := by
    rw [classifyItem_pass_to_end optsC5 locLate rfl rfl rfl
      (by intro a ha; simp [locLate] at ha)
      (by intro sd hsd; simp [optsC5] at hsd)]
    unfold classifyEnd
    show (if (500 : ℚ) < timeOf locLate
      then (if optsC5.chronological then ItemVerdict.breakLoop else ItemVerdict.skip)
      else classifyPolygon optsC5 locLate) = ItemVerdict.breakLoop
    rw [if_pos (by norm_num [timeOf, getTs, locLate])]
    rfl
  have hok : (if optsC5.chronological then sortLocations [locLateBad, locLate]
      else Except.ok [locLateBad, locLate]) = Except.ok [locLateBad, locLate] := rfl
  have hloop : processLoop dummyExt optsC5 [locLateBad, locLate]
      ⟨writeHeader optsC5.format optsC5.jsVariable optsC5.separator, true, none⟩ =
      ⟨⟨writeHeader optsC5.format optsC5.jsVariable optsC5.separator, true, none⟩,
        [], [], none⟩ := by
    rw [processLoop_cons_skip dummyExt hskip, processLoop_cons_break dummyExt hbreak]
  obtain ⟨hw, he, ho, hl⟩ := convert_proj dummyExt hok
  rw [hl, hw, he, hloop]
  exact ⟨rfl, rfl, rfl⟩

/-- C5 (amended): the early exit triggers at the first record that reaches
the end-date check — one that is complete and passes the accuracy and
start-date filters — with a timestamp past the end date: in chronological
mode the loop then stops, leaving the remaining input unconsumed, emitting
nothing for that record and ending without exception (so the footer is still
written); outside chronological mode the record is merely skipped and the
loop continues with the rest. -/
theorem C5_end_date_break (ext : PyExt) (opts : ConvertOpts) (item : Location)
    (rest : List Location) (st : LoopState)
    (hlat : item.latitudeE7.isSome = true) (hlon : item.longitudeE7.isSome = true)
    (hts : item.timestampMs.isSome = true)
    (hacc : ∀ a, item.accuracy = some a → ∃ m, opts.accuracy = some m ∧ a ≤ m)
    (hstart : ∀ sd, opts.startDate = some sd → sd ≤ timeOf item)
    (ed : ℚ) (hed : opts.endDate = some ed) (hlate : ed < timeOf item) :
    (opts.chronological = true →
      processLoop ext opts (item :: rest) st = ⟨st, [], rest, none⟩) ∧
    (opts.chronological = false →
      processLoop ext opts (item :: rest) st = processLoop ext opts rest st) := by
  have hend : classifyItem opts item =
      (if opts.chronological then .breakLoop else .skip) := by
    rw [classifyItem_pass_to_end opts item hlat hlon hts hacc hstart]
    unfold classifyEnd
    rw [hed]
    show (if ed < timeOf item then _ else _) = _
    rw [if_pos hlate]
  constructor
  · intro hc
    have hb : classifyItem opts item = .breakLoop := by rw [hend, hc]; rfl
    exact processLoop_cons_break ext hb rest st
  · intro hc
    have hs : classifyItem opts item = .skip := by rw [hend, hc]; rfl
    exact processLoop_cons_skip ext hs rest st

/-- C5 (witness): a concrete complete record past the end date breaks a
chronological loop, leaving the rest unconsumed, and is skipped by a
non-chronological loop. -/
theorem C5_witness :
    (optsC5.chronological = true →
      processLoop dummyExt optsC5 (locLate :: [locT2]) ⟨"", true, none⟩ =
        ⟨⟨"", true, none⟩, [], [locT2], none⟩) ∧
    (optsC5.chronological = false →
      processLoop dummyExt optsC5 (locLate :: [locT2]) ⟨"", true, none⟩ =
        processLoop dummyExt optsC5 [locT2] ⟨"", true, none⟩) := by
  refine C5_end_date_break dummyExt optsC5 locLate [locT2] ⟨"", true, none⟩ rfl rfl rfl
    ?_ ?_ 500 rfl ?_
  · intro a ha
    simp [locLate] at ha
  · intro sd hsd
    simp [optsC5] at hsd
  · norm_num [timeOf, getTs, locLate]

/-- C1 (counterexample): the polygon filter of line 397 runs on the raw
coordinates, before the overflow correction of lines 400-405. A record whose
raw latitude 4294967295 normalizes to -1 is dropped even though its
normalized coordinate lies inside the polygon — contradicting the claim that
the record is dropped exactly when the normalized coordinate fails the
containment test. -/
theorem C1_counterexample :
    (convert dummyExt [locOverflow] { polygon := some boxPoly }).written = [] ∧
    checkPoint boxPoly (normalizeCoord 4294967295) (normalizeCoord 0) = true := by
  constructor
  · have hcp : checkPoint boxPoly (getLat locOverflow) (getLon locOverflow) = false := by
      simp only [checkPoint, boxPoly, getLat, getLon, locOverflow, Option.getD_some,
        decide_eq_false_iff_not]
      intro h
      have h2 := h.2.1
      norm_num at h2
    have hskip : classifyItem { polygon := some boxPoly } locOverflow = .skip := by
      unfold classifyItem classifyAccuracy classifyStart classifyEnd classifyPolygon
      rw [if_neg (by simp [locOverflow])]
      show (if checkPoint boxPoly (getLat locOverflow) (getLon locOverflow) = true
        then ItemVerdict.emit (normalizeItem locOverflow) else ItemVerdict.skip) = _
      rw [hcp]
      rfl
    have hok : (if ({ polygon := some boxPoly } : ConvertOpts).chronological
        then sortLocations [locOverflow] else Except.ok [locOverflow]) =
        Except.ok [locOverflow] := rfl
    obtain ⟨hw, he, ho, -⟩ := convert_proj dummyExt hok
    rw [hw, processLoop_cons_skip dummyExt hskip, processLoop_nil]
  · simp only [checkPoint, boxPoly, decide_eq_true_eq]
    norm_num [normalizeCoord]

/-- C1 (amended): for a complete record that passes the accuracy and date
filters, with a polygon supplied, the containment predicate is evaluated on
the raw (pre-correction) coordinate fields: the record is dropped exactly
when that raw-coordinate test fails, and only when it is kept is the
overflow correction applied, so the emitter — not the filter — observes the
corrected coordinates. -/
theorem C1_polygon_checks_raw_coords (ext : PyExt) (opts : ConvertOpts) (item : Location)
    (rest : List Location) (st : LoopState) (p : Polygon)
    (hp : opts.polygon = some p)
    (hlat : item.latitudeE7.isSome = true) (hlon : item.longitudeE7.isSome = true)
    (hts : item.timestampMs.isSome = true)
    (hacc : ∀ a, item.accuracy = some a → ∃ m, opts.accuracy = some m ∧ a ≤ m)
    (hstart : ∀ sd, opts.startDate = some sd → sd ≤ timeOf item)
    (hend : ∀ ed, opts.endDate = some ed → timeOf item ≤ ed) :
    classifyItem opts item =
      (if checkPoint p (getLat item) (getLon item) then .emit (normalizeItem item)
        else .skip) ∧
    (normalizeItem item).latitudeE7 = some (normalizeCoord (getLat item)) ∧
    (normalizeItem item).longitudeE7 = some (normalizeCoord (getLon item)) ∧
    (checkPoint p (getLat item) (getLon item) = false →
      processLoop ext opts (item :: rest) st = processLoop ext opts rest st) ∧
    (checkPoint p (getLat item) (getLon item) = true →
      processLoop ext opts (item :: rest) st =
        (fun r => { r with written := normalizeItem item :: r.written })
          (processLoop ext opts rest
            ⟨st.out ++ writeLocation ext opts.format (normalizeItem item) opts.separator
              st.first st.lastLoc, false, some (normalizeItem item)⟩)) := by
  have hclass : classifyItem opts item =
      (if checkPoint p (getLat item) (getLon item) then ItemVerdict.emit (normalizeItem item)
        else ItemVerdict.skip) := by
    have hpoly : classifyPolygon opts item =
        (if checkPoint p (getLat item) (getLon item)
          then ItemVerdict.emit (normalizeItem item) else ItemVerdict.skip) := by
      unfold classifyPolygon
      rw [hp]
    rw [classifyItem_pass_to_end opts item hlat hlon hts hacc hstart]
    unfold classifyEnd
    cases hE : opts.endDate with
    | none => exact hpoly
    | some ed =>
      show (if ed < timeOf item
        then (if opts.chronological then ItemVerdict.breakLoop else ItemVerdict.skip)
        else classifyPolygon opts item) = _
      rw [if_neg (not_lt.mpr (hend ed hE))]
      exact hpoly
  refine ⟨hclass, rfl, rfl, ?_, ?_⟩
  · intro hfail
    refine processLoop_cons_skip ext ?_ rest st
    rw [hclass, hfail]
    rfl
  · intro hpass
    refine processLoop_cons_emit ext ?_ rest st
    rw [hclass, hpass]
    rfl

/-- C1 (witness): a concrete in-range record inside the box polygon is
classified by the raw-coordinate containment test and emitted normalized. -/
theorem C1_witness :
    classifyItem { polygon := some boxPoly } locOrigin =
      (if checkPoint boxPoly (getLat locOrigin) (getLon locOrigin)
        then .emit (normalizeItem locOrigin) else .skip) ∧
    (normalizeItem locOrigin).latitudeE7 = some (normalizeCoord (getLat locOrigin)) ∧
    (normalizeItem locOrigin).longitudeE7 = some (normalizeCoord (getLon locOrigin)) ∧
    (checkPoint boxPoly (getLat locOrigin) (getLon locOrigin) = false →
      processLoop dummyExt { polygon := some boxPoly } (locOrigin :: []) ⟨"", true, none⟩ =
        processLoop dummyExt { polygon := some boxPoly } [] ⟨"", true, none⟩) ∧
    (checkPoint boxPoly (getLat locOrigin) (getLon locOrigin) = true →
      processLoop dummyExt { polygon := some boxPoly } (locOrigin :: []) ⟨"", true, none⟩ =
        (fun r => { r with written := normalizeItem locOrigin :: r.written })
          (processLoop dummyExt { polygon := some boxPoly } []
            ⟨"" ++ writeLocation dummyExt ({ polygon := some boxPoly } : ConvertOpts).format
              (normalizeItem locOrigin) ({ polygon := some boxPoly } : ConvertOpts).separator
              true none, false, some (normalizeItem locOrigin)⟩)) := by
  refine C1_polygon_checks_raw_coords dummyExt { polygon := some boxPoly } locOrigin []
    ⟨"", true, none⟩ boxPoly rfl rfl rfl rfl ?_ ?_ ?_
  · intro a ha
    simp [locOrigin] at ha
  · intro sd hsd
    simp at hsd
  · intro ed hed
    simp at hed

/-- C7: the `gpxtracks` segmentation of lines 271-284 starts a new segment
exactly when the time delta in minutes (|Δ timestampMs| / 60000) exceeds 10
or the Haversine distance exceeds 40 km; concretely, 11 minutes at the same
spot starts a new segment, 5 minutes across one degree of equatorial
longitude (about 111 km) starts one, and 5 minutes across 0.09 degrees
(about 10 km) does not. -/
theorem C7_track_segmentation :
    (∀ loc last : Location, NewTrackCond loc last ↔
      (10 < |(getTs loc : ℚ) - (getTs last : ℚ)| / 60000 ∨
        40 < trackDistance loc last)) ∧
    NewTrackCond trk11min trkPrev0 ∧
    NewTrackCond trk5min trkPrev1deg ∧
    ¬ NewTrackCond trk5min trkPrev10km := by
  have htd : ∀ loc last : Location, trackTimedelta loc last =
      |(getTs loc : ℚ) - (getTs last : ℚ)| / 60000 := by
    intro loc last
    unfold trackTimedelta
    rw [div_div, abs_div]
    norm_num
  refine ⟨?_, ?_, ?_, ?_⟩
  · intro loc last
    unfold NewTrackCond
    rw [htd]
  · refine Or.inl ?_
    rw [htd]
    simp only [getTs, trk11min, trkPrev0, Option.getD_some]
    rw [abs_of_nonneg (by norm_num)]
    norm_num
  · refine Or.inr ?_
    have hd : trackDistance trk5min trkPrev1deg = distance 0 0 0 1 := by
      unfold trackDistance r7
      simp only [getLat, getLon, trk5min, trkPrev1deg, Option.getD_some]
      norm_num
    rw [hd, distance_equator 1 (by norm_num) (by norm_num)]
    nlinarith [Real.pi_gt_three]
  · rintro (h | h)
    · rw [htd] at h
      simp only [getTs, trk5min, trkPrev10km, Option.getD_some] at h
      rw [abs_of_nonneg (by norm_num)] at h
      norm_num at h
    · have hd : trackDistance trk5min trkPrev10km = distance 0 0 0 (900000 / 10000000) := by
        unfold trackDistance r7
        simp only [getLat, getLon, trk5min, trkPrev10km, Option.getD_some]
        norm_num
      rw [hd, distance_equator (900000 / 10000000) (by norm_num) (by norm_num)] at h
      nlinarith [Real.pi_lt_d2]

end LocHist
